import Mathlib

/-!
# Verification of the Tone-Mapping library (src/Clib)

Shallow embedding of `HDR.cpp` and `shaderClass.cpp`: the mutable file-scope
globals (`gWindow`, `gGLReady`, `quadVAO`, `quadVBO`) together with the GPU
object tables become an explicit state record `GLState`; the behavior of the
external collaborators (GLFW, GLAD, the GL driver, the file system) is an
environment record `Env` of oracles; every observable action (GL calls, window
creation/destruction, diagnostics printed with `std::cout`) is recorded in an
event trace.  Handles produced by `glGen* / glCreate* / glfwCreateWindow` are
modelled as fresh positive naturals drawn from a counter, so a handle is `0`
exactly when the corresponding C++ global is `0` / `nullptr`.
-/

namespace ToneMapping

/-- Output channel of a diagnostic message.  `HDR.cpp`/`shaderClass.cpp` print
with `std::cout`, which is the standard output stream. -/
inductive Channel
  | stdout
  | stderr
deriving DecidableEq, Repr

/-- Texture storage formats used by `UploadToGL`. -/
inductive TexFmt
  | rgb16f
  | rgba8
deriving DecidableEq, Repr

/-- One observable action of the library: a GLFW/GLAD call, a GL call, or a
diagnostic line.  `readPixels` is the only action that writes into the
caller-supplied `outputBGRA` buffer. -/
inductive Event
  | glfwInitCall (ok : Bool)
  | createWindow (id : Nat)
  | createWindowFailed
  | makeContextCurrent (w : Option Nat)
  | gladLoad (ok : Bool)
  | genVertexArray (id : Nat)
  | genBuffer (id : Nat)
  | bindVertexArray (id : Nat)
  | bindBuffer (id : Nat)
  | bufferData (data : List Int)
  | vertexAttrib (index comps offsetBytes strideBytes : Nat)
  | genTexture (id : Nat)
  | bindTexture (id : Nat)
  | texImage2D (fmt : TexFmt) (w h : Int)
  | texParamLinear
  | genFramebuffer (id : Nat)
  | bindFramebuffer (id : Nat)
  | framebufferTexture2D (fb tex : Nat)
  | checkFramebuffer (complete : Bool)
  | viewport (w h : Int)
  | createShader (id : Nat)
  | shaderSource (id : Nat) (src : String)
  | compileShader (id : Nat)
  | createProgram (id : Nat)
  | attachShader (pid sid : Nat)
  | linkProgram (id : Nat)
  | useProgram (id : Nat)
  | uniform1i (name : String) (v : Int)
  | uniform1f (name : String) (v : Rat)
  | activeTexture (unit : Nat)
  | drawArrays (first count : Nat)
  | readPixels (w h : Int)
  | deleteTexture (id : Nat)
  | deleteFramebuffer (id : Nat)
  | deleteShader (id : Nat)
  | deleteProgram (id : Nat)
  | destroyWindow (w : Option Nat)
  | glfwTerminate
  | log (ch : Channel) (msg : String)
deriving DecidableEq, Repr

/-- Behavior of the external collaborators, fixed for the duration of a run:
whether `glfwInit`, `glfwCreateWindow` and `gladLoadGLLoader` succeed, whether
`glCheckFramebufferStatus` reports complete, the file system contents
(`none` = file cannot be opened), whether the driver compiles a given source
text (`GL_COMPILE_STATUS`), whether it links (`GL_LINK_STATUS`), the
engine-provided info log for each handle, and the directory that
`std::filesystem::current_path().parent_path()` four times up resolves to. -/
structure Env where
  glfwInitOk : Bool
  createWindowOk : Bool
  gladOk : Bool
  fbComplete : Bool
  files : String → Option String
  compileOk : String → Bool
  linkOk : Bool
  infoLog : Nat → String
  shaderRoot : String

/-- The mutable state of the library: the four file-scope globals of
`HDR.cpp`, a fresh-handle counter, the sets of live GPU/window objects, and
the per-handle compile/link status the driver would report back to
`glGetShaderiv` / `glGetProgramiv`. -/
structure GLState where
  gWindow : Option Nat
  gGLReady : Bool
  quadVAO : Nat
  quadVBO : Nat
  nextId : Nat
  liveWindows : List Nat
  liveVAOs : List Nat
  liveVBOs : List Nat
  liveTextures : List Nat
  liveFramebuffers : List Nat
  liveShaders : List Nat
  livePrograms : List Nat
  compileStatus : List (Nat × Bool)
  linkStatus : List (Nat × Bool)
deriving DecidableEq, Repr

/-- Process start state: all globals zero / null / false, nothing live. -/
def initState : GLState :=
  { gWindow := none, gGLReady := false, quadVAO := 0, quadVBO := 0, nextId := 0,
    liveWindows := [], liveVAOs := [], liveVBOs := [], liveTextures := [],
    liveFramebuffers := [], liveShaders := [], livePrograms := [],
    compileStatus := [], linkStatus := [] }

/-- The `quadVertices` array of `InitFullscreenQuad` (`HDR.cpp` lines 65-73):
six vertices, each `position.x, position.y, u, v`.  All entries are the float
literals `-1`, `0`, `1`, represented exactly as integers. -/
def quadVertices : List Int :=
  [-1,  1, 0, 1,
   -1, -1, 0, 0,
    1, -1, 1, 0,
   -1,  1, 0, 1,
    1, -1, 1, 0,
    1,  1, 1, 1]

/-- `InitFullscreenQuad` (`HDR.cpp` lines 52-110).  Early-returns when
`quadVAO` is non-zero; otherwise generates a VAO and a VBO, uploads
`quadVertices`, and configures attribute 0 (position: 2 floats, offset 0) and
attribute 1 (uv: 2 floats, offset `2*sizeof(float)` = 8 bytes), both with
stride `4*sizeof(float)` = 16 bytes. -/
def initFullscreenQuad (s : GLState) : GLState × List Event :=
  if s.quadVAO ≠ 0 then (s, [])
  else
    let vao := s.nextId + 1
    let vbo := s.nextId + 2
    ({ s with quadVAO := vao, quadVBO := vbo, nextId := s.nextId + 2,
              liveVAOs := vao :: s.liveVAOs, liveVBOs := vbo :: s.liveVBOs },
     [.genVertexArray vao, .genBuffer vbo, .bindVertexArray vao, .bindBuffer vbo,
      .bufferData quadVertices,
      .vertexAttrib 0 2 0 16, .vertexAttrib 1 2 8 16,
      .bindVertexArray 0])

/-- `InitGLFW` (`HDR.cpp` lines 122-152).  Early-returns `true` when
`gGLReady`; otherwise runs `glfwInit`, creates the hidden 1x1 window (the
result, possibly null, is stored into `gWindow` before the check), makes the
context current, loads GL entry points with GLAD, and only then sets
`gGLReady`.  Any failure returns `false` at that point with no rollback. -/
def initGLFW (env : Env) (s : GLState) : Bool × GLState × List Event :=
  if s.gGLReady then (true, s, [])
  else if env.glfwInitOk = false then (false, s, [.glfwInitCall false])
  else if env.createWindowOk = false then
    (false, { s with gWindow := none }, [.glfwInitCall true, .createWindowFailed])
  else
    let w := s.nextId + 1
    let s1 : GLState :=
      { s with gWindow := some w, nextId := s.nextId + 1,
               liveWindows := w :: s.liveWindows }
    if env.gladOk = false then
      (false, s1,
       [.glfwInitCall true, .createWindow w, .makeContextCurrent (some w), .gladLoad false])
    else
      (true, { s1 with gGLReady := true },
       [.glfwInitCall true, .createWindow w, .makeContextCurrent (some w), .gladLoad true])

/-- `CleanupGLFW` (`HDR.cpp` lines 322-330).  Acts only when `gGLReady`:
destroys the stored window, terminates GLFW and clears `gGLReady`.  It does
not clear `gWindow`, `quadVAO` or `quadVBO`. -/
def cleanupGLFW (s : GLState) : GLState × List Event :=
  if s.gGLReady then
    ({ s with gGLReady := false,
              liveWindows := match s.gWindow with
                             | some w => s.liveWindows.erase w
                             | none => s.liveWindows },
     [.destroyWindow s.gWindow, .glfwTerminate])
  else (s, [])

/-- `get_file_contents` (`shaderClass.cpp` lines 23-44): returns the file's
text, or the empty string after printing `file not found: <name>` with
`std::cout` when the file cannot be opened. -/
def get_file_contents (env : Env) (filename : String) : String × List Event :=
  match env.files filename with
  | none => ("", [.log .stdout ("file not found: " ++ filename)])
  | some contents => (contents, [])

/-- Truncation performed by `glGetShaderInfoLog(h, 1024, NULL, infoLog)` /
`glGetProgramInfoLog`: with a 1024-byte buffer the driver stores at most 1023
log characters plus the terminating null. -/
def truncLog (msg : String) : String := String.mk (msg.data.take 1023)

/-- `Shader::compileErrors` (`shaderClass.cpp` lines 151-180).  For a stage
(`type` other than `"PROGRAM"`) it checks `GL_COMPILE_STATUS` and on failure
prints `SHADER_COMPILATION_ERROR for: <type>` plus up to 1023 characters of
the info log; for `"PROGRAM"` it checks `GL_LINK_STATUS` and prints
`SHADER_LINKING_ERROR for: PROGRAM` likewise.  All output goes through
`std::cout`.  (The C++ comparison `type != "PROGRAM"` is a pointer comparison
that, with the pooled literals of this translation unit, behaves as string
comparison.) -/
def compileErrors (env : Env) (s : GLState) (shader : Nat) (type : String) :
    List Event :=
  if type ≠ "PROGRAM" then
    if (s.compileStatus.lookup shader).getD true = false then
      [.log .stdout ("SHADER_COMPILATION_ERROR for: " ++ type ++ "\n"
         ++ truncLog (env.infoLog shader))]
    else []
  else
    if (s.linkStatus.lookup shader).getD true = false then
      [.log .stdout ("SHADER_LINKING_ERROR for: " ++ type ++ "\n"
         ++ truncLog (env.infoLog shader))]
    else []

/-- A built shader program: the `ID` member of class `Shader`. -/
structure Shader where
  ID : Nat
deriving DecidableEq, Repr

/-- `Shader::Shader` (`shaderClass.cpp` lines 58-116): load both source files,
create+compile the vertex stage, report its errors, create+compile the
fragment stage, report its errors, create the program, attach both stages,
link, report link errors, then delete the two stage objects unconditionally.
The freshly created handles are `nextId+1` (vertex), `nextId+2` (fragment) and
`nextId+3` (program). -/
def shaderNew (env : Env) (s : GLState) (vertexFile fragmentFile : String) :
    Shader × GLState × List Event :=
  let rv := get_file_contents env vertexFile
  let rf := get_file_contents env fragmentFile
  let vertexCode := rv.1
  let fragmentCode := rf.1
  let vertexShader := s.nextId + 1
  let s1 : GLState :=
    { s with nextId := s.nextId + 1,
             liveShaders := vertexShader :: s.liveShaders,
             compileStatus := (vertexShader, env.compileOk vertexCode) :: s.compileStatus }
  let fragmentShader := s.nextId + 2
  let s2 : GLState :=
    { s1 with nextId := s.nextId + 2,
              liveShaders := fragmentShader :: s1.liveShaders,
              compileStatus := (fragmentShader, env.compileOk fragmentCode) :: s1.compileStatus }
  let pid := s.nextId + 3
  let s3 : GLState :=
    { s2 with nextId := s.nextId + 3,
              livePrograms := pid :: s2.livePrograms,
              linkStatus := (pid, env.linkOk) :: s2.linkStatus }
  let s4 : GLState :=
    { s3 with liveShaders := (s3.liveShaders.erase vertexShader).erase fragmentShader }
  (⟨pid⟩, s4,
    rv.2 ++ rf.2
      ++ [.createShader vertexShader, .shaderSource vertexShader vertexCode,
          .compileShader vertexShader]
      ++ compileErrors env s1 vertexShader "VERTEX"
      ++ [.createShader fragmentShader, .shaderSource fragmentShader fragmentCode,
          .compileShader fragmentShader]
      ++ compileErrors env s2 fragmentShader "FRAGMENT"
      ++ [.createProgram pid, .attachShader pid vertexShader,
          .attachShader pid fragmentShader, .linkProgram pid]
      ++ compileErrors env s3 pid "PROGRAM"
      ++ [.deleteShader vertexShader, .deleteShader fragmentShader])

/-- `Shader::Activate` (`shaderClass.cpp` lines 124-127): `glUseProgram(ID)`. -/
def Shader.Activate (sh : Shader) : List Event := [.useProgram sh.ID]

/-- `Shader::Delete` (`shaderClass.cpp` lines 135-138): `glDeleteProgram(ID)`. -/
def Shader.Delete (sh : Shader) (s : GLState) : GLState × List Event :=
  ({ s with livePrograms := s.livePrograms.erase sh.ID }, [.deleteProgram sh.ID])

/-- `UploadToGL` (`HDR.cpp` lines 174-314).  Returns the final state and the
event trace; the caller's `outputBGRA` buffer is written exactly by the
`readPixels` event.  Early returns: after `InitGLFW` fails, and after the
framebuffer-completeness check fails (the latter leaves the already-created
`hdrTex`, `colorTex` and `fbo` undeleted).  On the full path the per-call
objects are the HDR input texture `hdrTex`, the render-target `colorTex`, the
framebuffer `fbo` and the shader program; all four are deleted at the end. -/
def uploadToGL (env : Env) (s : GLState) (width height : Int)
    (exposure whitePoint : Rat) : GLState × List Event :=
  let r0 := initGLFW env s
  if r0.1 = false then (r0.2.1, r0.2.2)
  else
    let rq := initFullscreenQuad r0.2.1
    let s2 := rq.1
    let eCtx := [Event.makeContextCurrent s2.gWindow]
    let hdrTex := s2.nextId + 1
    let s3 : GLState := { s2 with nextId := s2.nextId + 1,
                                  liveTextures := hdrTex :: s2.liveTextures }
    let e3 := [Event.genTexture hdrTex, .bindTexture hdrTex,
               .texImage2D .rgb16f width height, .texParamLinear, .texParamLinear]
    let fbo := s3.nextId + 1
    let colorTex := s3.nextId + 2
    let s4 : GLState := { s3 with nextId := s3.nextId + 2,
                                  liveFramebuffers := fbo :: s3.liveFramebuffers,
                                  liveTextures := colorTex :: s3.liveTextures }
    let e4 := [Event.genFramebuffer fbo, .bindFramebuffer fbo,
               .genTexture colorTex, .bindTexture colorTex,
               .texImage2D .rgba8 width height, .texParamLinear, .texParamLinear,
               .bindTexture 0, .framebufferTexture2D fbo colorTex,
               .checkFramebuffer env.fbComplete]
    if env.fbComplete = false then
      (s4, r0.2.2 ++ rq.2 ++ eCtx ++ e3 ++ e4)
    else
      let e5 := [Event.bindFramebuffer fbo, Event.viewport width height]
      let path_vert := env.shaderRoot ++ "\\Clib\\default.vert"
      let path_frag := env.shaderRoot ++ "\\Clib\\default.frag"
      let rs := shaderNew env s4 path_vert path_frag
      let shaderProgram := rs.1
      let s5 := rs.2.1
      let e7 := shaderProgram.Activate
      let e8 := [Event.uniform1i "tex0" 0, .uniform1f "exposure" exposure,
                 .uniform1f "whitePoint" whitePoint,
                 .uniform1f "gamma" (11/5 : Rat)]
      let e9 := [Event.bindVertexArray s2.quadVAO, .activeTexture 0,
                 .bindTexture hdrTex, .drawArrays 0 6, .bindVertexArray 0]
      let e10 := [Event.readPixels width height]
      let s6 : GLState :=
        { s5 with liveTextures := (s5.liveTextures.erase hdrTex).erase colorTex,
                  liveFramebuffers := s5.liveFramebuffers.erase fbo }
      let rDel := shaderProgram.Delete s6
      (rDel.1,
       r0.2.2 ++ rq.2 ++ eCtx ++ e3 ++ e4 ++ e5 ++ rs.2.2 ++ e7 ++ e8 ++ e9
         ++ e10
         ++ [Event.deleteTexture hdrTex, .deleteTexture colorTex,
             .deleteFramebuffer fbo]
         ++ rDel.2)

/-- Is this event the `glReadPixels` call?  It is the only call in
`UploadToGL` that stores into the caller's `outputBGRA` buffer. -/
def isReadPixels : Event → Bool
  | .readPixels _ _ => true
  | _ => false

/-- Does a trace write the caller's output buffer? -/
def writesOutput (t : List Event) : Bool := t.any isReadPixels

/-! ## Concrete environments used by witnesses and counterexamples -/

/-- Environment in which every collaborator succeeds. -/
def envAllOk : Env :=
  { glfwInitOk := true, createWindowOk := true, gladOk := true, fbComplete := true,
    files := fun _ => some "src", compileOk := fun _ => true, linkOk := true,
    infoLog := fun _ => "", shaderRoot := "C:" }

/-- Environment in which `glfwInit` itself fails. -/
def envInitFail : Env :=
  { glfwInitOk := false, createWindowOk := true, gladOk := true, fbComplete := true,
    files := fun _ => some "src", compileOk := fun _ => true, linkOk := true,
    infoLog := fun _ => "", shaderRoot := "C:" }

/-- Environment in which GLAD entry-point loading fails after the window was
created. -/
def envGladFail : Env :=
  { glfwInitOk := true, createWindowOk := true, gladOk := false, fbComplete := true,
    files := fun _ => some "src", compileOk := fun _ => true, linkOk := true,
    infoLog := fun _ => "", shaderRoot := "C:" }

/-- Environment with a working context but an incomplete framebuffer. -/
def envFbBad : Env :=
  { glfwInitOk := true, createWindowOk := true, gladOk := true, fbComplete := false,
    files := fun _ => some "src", compileOk := fun _ => true, linkOk := true,
    infoLog := fun _ => "", shaderRoot := "C:" }

/-- A state with a successfully initialized context and no other objects. -/
def readyState : GLState := (initGLFW envAllOk initState).2.1

/-! ## Helper lemmas -/

lemma anyRP_initGLFW (env : Env) (s : GLState) :
    (initGLFW env s).2.2.any isReadPixels = false := by
  cases h1 : s.gGLReady <;> cases h2 : env.glfwInitOk <;>
    cases h3 : env.createWindowOk <;> cases h4 : env.gladOk <;>
    simp [initGLFW, isReadPixels, h1, h2, h3, h4]

lemma anyRP_initFullscreenQuad (s : GLState) :
    (initFullscreenQuad s).2.any isReadPixels = false := by
  by_cases h : s.quadVAO = 0 <;> simp [initFullscreenQuad, isReadPixels, h]

lemma initGLFW_ready_of_true (env : Env) (s : GLState)
    (h : (initGLFW env s).1 = true) : (initGLFW env s).2.1.gGLReady = true := by
  cases h1 : s.gGLReady <;> cases h2 : env.glfwInitOk <;>
    cases h3 : env.createWindowOk <;> cases h4 : env.gladOk <;>
    simp_all [initGLFW]

lemma cleanupGLFW_not_ready (s : GLState) :
    (cleanupGLFW s).1.gGLReady = false := by
  cases h : s.gGLReady <;> simp [cleanupGLFW, h]

lemma shaderNew_liveTextures (env : Env) (s : GLState) (vf ff : String) :
    (shaderNew env s vf ff).2.1.liveTextures = s.liveTextures := by
  simp [shaderNew]

lemma shaderNew_liveFramebuffers (env : Env) (s : GLState) (vf ff : String) :
    (shaderNew env s vf ff).2.1.liveFramebuffers = s.liveFramebuffers := by
  simp [shaderNew]

lemma shaderNew_liveShaders (env : Env) (s : GLState) (vf ff : String) :
    (shaderNew env s vf ff).2.1.liveShaders = s.liveShaders := by
  simp [shaderNew, List.erase_cons]

lemma shaderNew_livePrograms (env : Env) (s : GLState) (vf ff : String) :
    (shaderNew env s vf ff).2.1.livePrograms = (s.nextId + 3) :: s.livePrograms := by
  simp [shaderNew]

lemma shaderNew_nextId (env : Env) (s : GLState) (vf ff : String) :
    (shaderNew env s vf ff).2.1.nextId = s.nextId + 3 := by
  simp [shaderNew]

lemma shaderNew_quadVAO (env : Env) (s : GLState) (vf ff : String) :
    (shaderNew env s vf ff).2.1.quadVAO = s.quadVAO := by
  simp [shaderNew]

lemma shaderNew_gGLReady (env : Env) (s : GLState) (vf ff : String) :
    (shaderNew env s vf ff).2.1.gGLReady = s.gGLReady := by
  simp [shaderNew]

lemma shaderNew_ID (env : Env) (s : GLState) (vf ff : String) :
    (shaderNew env s vf ff).1.ID = s.nextId + 3 := by
  simp [shaderNew]

lemma initGLFW_quadVAO (env : Env) (s : GLState) :
    (initGLFW env s).2.1.quadVAO = s.quadVAO := by
  cases h1 : s.gGLReady <;> cases h2 : env.glfwInitOk <;>
    cases h3 : env.createWindowOk <;> cases h4 : env.gladOk <;>
    simp [initGLFW, h1, h2, h3, h4]

lemma cleanupGLFW_quadVAO (s : GLState) :
    (cleanupGLFW s).1.quadVAO = s.quadVAO := by
  cases h : s.gGLReady <;> simp [cleanupGLFW, h]

/-! ## Claims -/

/-- C1: if the context initialization step fails (`InitGLFW` returns false) or
the framebuffer-completeness check does not report complete, `UploadToGL`
returns early and no byte of the caller-supplied `outputBGRA` buffer is
written (no `readPixels` ever happens). -/
theorem uploadToGL_no_output_on_failure (env : Env) (s : GLState)
    (width height : Int) (exposure whitePoint : Rat)
    (h : (initGLFW env s).1 = false ∨ env.fbComplete = false) :
    writesOutput (uploadToGL env s width height exposure whitePoint).2 = false := by
  by_cases hi : (initGLFW env s).1 = false
  · simp [uploadToGL, writesOutput, hi, anyRP_initGLFW]
  · have hfb : env.fbComplete = false := h.resolve_left hi
    simp [uploadToGL, writesOutput, hi, hfb, List.any_append, anyRP_initGLFW,
      anyRP_initFullscreenQuad, isReadPixels]

/-- Witness for C1 at a concrete input: `glfwInit` fails, nothing is written. -/
theorem uploadToGL_no_output_on_failure_witness :
    writesOutput (uploadToGL envInitFail initState 2 1 1 1).2 = false :=
  uploadToGL_no_output_on_failure envInitFail initState 2 1 1 1
    (Or.inl (by decide))

/-- C3 counterexample: in an environment where GLAD entry-point loading fails
after the hidden window was created, two successive calls to `InitGLFW` are
not equivalent to one — the second call creates a second window (different
final state) and has observable effects (non-empty trace). -/
theorem initGLFW_twice_ne_once :
    (initGLFW envGladFail (initGLFW envGladFail initState).2.1).2.1
      ≠ (initGLFW envGladFail initState).2.1 ∧
    (initGLFW envGladFail (initGLFW envGladFail initState).2.1).2.2 ≠ [] := by
  decide

/-- C3 (amended): if a call to `InitGLFW` returns true — in particular when
the context is already initialized — a further call returns true immediately
with no side effects, so the two-call sequence is equivalent to a single call
whenever the first call succeeds.  (The equivalence fails when the first call
fails after creating the window, see `initGLFW_twice_ne_once`.) -/
theorem initGLFW_idempotent_on_success (env : Env) (s : GLState)
    (h : (initGLFW env s).1 = true) :
    initGLFW env (initGLFW env s).2.1 = (true, (initGLFW env s).2.1, []) := by
  have hr := initGLFW_ready_of_true env s h
  generalize hgen : (initGLFW env s).2.1 = s1 at hr ⊢
  simp [initGLFW, hr]

/-- Witness for the amended C3 at a concrete input. -/
theorem initGLFW_idempotent_on_success_witness :
    initGLFW envAllOk (initGLFW envAllOk initState).2.1
      = (true, (initGLFW envAllOk initState).2.1, []) :=
  initGLFW_idempotent_on_success envAllOk initState (by decide)

/-- C8: `CleanupGLFW` is a no-op if the context was never initialized
(`gGLReady` false), calling it twice is safe (the second call is always a
no-op), and a subsequent `InitGLFW` after a cleanup performs the full
initialization sequence — its trace actually calls `glfwInit` instead of
taking the early `return true`. -/
theorem cleanupGLFW_safe (env : Env) (s s2 : GLState)
    (h : s.gGLReady = false) :
    cleanupGLFW s = (s, []) ∧
    cleanupGLFW (cleanupGLFW s2).1 = ((cleanupGLFW s2).1, []) ∧
    Event.glfwInitCall env.glfwInitOk ∈ (initGLFW env (cleanupGLFW s2).1).2.2 := by
  refine ⟨by simp [cleanupGLFW, h], ?_, ?_⟩
  · have hnr := cleanupGLFW_not_ready s2
    generalize hg : (cleanupGLFW s2).1 = t at hnr ⊢
    simp [cleanupGLFW, hnr]
  · have hnr := cleanupGLFW_not_ready s2
    generalize hg : (cleanupGLFW s2).1 = t at hnr ⊢
    cases h2 : env.glfwInitOk <;> cases h3 : env.createWindowOk <;>
      cases h4 : env.gladOk <;> simp [initGLFW, hnr, h2, h3, h4]

/-- Witness for C8 at concrete inputs (fresh state, and an initialized state
for the double-cleanup and re-init parts). -/
theorem cleanupGLFW_safe_witness :
    cleanupGLFW initState = (initState, []) ∧
    cleanupGLFW (cleanupGLFW readyState).1 = ((cleanupGLFW readyState).1, []) ∧
    Event.glfwInitCall envAllOk.glfwInitOk
      ∈ (initGLFW envAllOk (cleanupGLFW readyState).1).2.2 :=
  cleanupGLFW_safe envAllOk initState readyState (by decide)

/-- C10: `InitGLFW` is not atomic on failure.  If GLAD loading fails after
the hidden window was created, it returns false leaving `gWindow` set to the
new window and `gGLReady` false; `CleanupGLFW` from that state is a complete
no-op (the window is not destroyed), and the next `InitGLFW` creates a second
window, overwriting the stored handle while the first window stays alive. -/
theorem initGLFW_not_atomic (env : Env) (s : GLState)
    (hr : s.gGLReady = false) (h1 : env.glfwInitOk = true)
    (h2 : env.createWindowOk = true) (h3 : env.gladOk = false) :
    (initGLFW env s).1 = false ∧
    (initGLFW env s).2.1.gWindow = some (s.nextId + 1) ∧
    (initGLFW env s).2.1.gGLReady = false ∧
    (s.nextId + 1) ∈ (initGLFW env s).2.1.liveWindows ∧
    cleanupGLFW (initGLFW env s).2.1 = ((initGLFW env s).2.1, []) ∧
    (initGLFW env (initGLFW env s).2.1).2.1.gWindow = some (s.nextId + 2) ∧
    (s.nextId + 1) ∈ (initGLFW env (initGLFW env s).2.1).2.1.liveWindows ∧
    Event.destroyWindow (some (s.nextId + 1))
      ∉ (initGLFW env (initGLFW env s).2.1).2.2 ∧
    s.nextId + 2 ≠ s.nextId + 1 := by
  simp [initGLFW, cleanupGLFW, hr, h1, h2, h3]

/-- Witness for C10 at a concrete input. -/
theorem initGLFW_not_atomic_witness :
    (initGLFW envGladFail initState).1 = false ∧
    (initGLFW envGladFail initState).2.1.gWindow = some (initState.nextId + 1) ∧
    (initGLFW envGladFail initState).2.1.gGLReady = false ∧
    (initState.nextId + 1) ∈ (initGLFW envGladFail initState).2.1.liveWindows ∧
    cleanupGLFW (initGLFW envGladFail initState).2.1
      = ((initGLFW envGladFail initState).2.1, []) ∧
    (initGLFW envGladFail (initGLFW envGladFail initState).2.1).2.1.gWindow
      = some (initState.nextId + 2) ∧
    (initState.nextId + 1)
      ∈ (initGLFW envGladFail (initGLFW envGladFail initState).2.1).2.1.liveWindows ∧
    Event.destroyWindow (some (initState.nextId + 1))
      ∉ (initGLFW envGladFail (initGLFW envGladFail initState).2.1).2.2 ∧
    initState.nextId + 2 ≠ initState.nextId + 1 :=
  initGLFW_not_atomic envGladFail initState (by decide) (by decide) (by decide)
    (by decide)

/-- C2 counterexample: `UploadToGL` invoked from a ready context with an
incomplete framebuffer returns early (`HDR.cpp` line 257) after having
created the input HDR texture (handle 4), the render-target texture (handle
6) and the framebuffer (handle 5); none of them is deleted, so they outlive
the invocation — refuting the claim that on every invocation all per-call
objects are deleted before return. -/
theorem uploadToGL_leaks_on_incomplete_fb :
    (uploadToGL envFbBad readyState 1 1 1 1).1.liveTextures = [6, 4] ∧
    readyState.liveTextures = ([] : List Nat) ∧
    (uploadToGL envFbBad readyState 1 1 1 1).1.liveFramebuffers = [5] ∧
    readyState.liveFramebuffers = ([] : List Nat) := by decide

/-- C2 (amended): on every invocation of `UploadToGL` that starts from an
initialized context and passes the framebuffer-completeness check, the four
per-call GPU objects (input HDR texture, render-target texture, framebuffer,
shader program) are all deleted before the invocation returns — every live
object table is back to its pre-call baseline — while the quad geometry and
the context persist across the call.  On the incomplete-framebuffer early
return the three objects already created are not deleted
(`uploadToGL_leaks_on_incomplete_fb`). -/
theorem uploadToGL_releases_per_call_objects (env : Env) (s : GLState)
    (width height : Int) (exposure whitePoint : Rat)
    (hready : s.gGLReady = true) (hfb : env.fbComplete = true) :
    (uploadToGL env s width height exposure whitePoint).1.liveTextures
      = s.liveTextures ∧
    (uploadToGL env s width height exposure whitePoint).1.liveFramebuffers
      = s.liveFramebuffers ∧
    (uploadToGL env s width height exposure whitePoint).1.livePrograms
      = s.livePrograms ∧
    (uploadToGL env s width height exposure whitePoint).1.liveShaders
      = s.liveShaders ∧
    (uploadToGL env s width height exposure whitePoint).1.gGLReady = true ∧
    (s.quadVAO ≠ 0 →
      (uploadToGL env s width height exposure whitePoint).1.quadVAO
        = s.quadVAO) := by
  have h0 : initGLFW env s = (true, s, []) := by simp [initGLFW, hready]
  by_cases hq : s.quadVAO = 0 <;>
    simp [uploadToGL, h0, hfb, hready, initFullscreenQuad, hq, Shader.Delete,
      shaderNew_liveTextures, shaderNew_liveFramebuffers, shaderNew_liveShaders,
      shaderNew_livePrograms, shaderNew_nextId, shaderNew_quadVAO,
      shaderNew_gGLReady, shaderNew_ID, List.erase_cons]

/-- Witness for the amended C2 at a concrete input. -/
theorem uploadToGL_releases_per_call_objects_witness :
    (uploadToGL envAllOk readyState 2 1 1 1).1.liveTextures
      = readyState.liveTextures ∧
    (uploadToGL envAllOk readyState 2 1 1 1).1.liveFramebuffers
      = readyState.liveFramebuffers ∧
    (uploadToGL envAllOk readyState 2 1 1 1).1.livePrograms
      = readyState.livePrograms ∧
    (uploadToGL envAllOk readyState 2 1 1 1).1.liveShaders
      = readyState.liveShaders ∧
    (uploadToGL envAllOk readyState 2 1 1 1).1.gGLReady = true ∧
    (readyState.quadVAO ≠ 0 →
      (uploadToGL envAllOk readyState 2 1 1 1).1.quadVAO
        = readyState.quadVAO) :=
  uploadToGL_releases_per_call_objects envAllOk readyState 2 1 1 1
    (by decide) (by decide)

/-- Is this event the creation of a vertex-array object
(`glGenVertexArrays`)?  Only `InitFullscreenQuad` ever emits it. -/
def isGenVAO : Event → Bool
  | .genVertexArray _ => true
  | _ => false

lemma anyGenVAO_get_file_contents (env : Env) (fn : String) :
    (get_file_contents env fn).2.any isGenVAO = false := by
  cases h : env.files fn <;> simp [get_file_contents, h, isGenVAO]

lemma anyGenVAO_compileErrors (env : Env) (s : GLState) (sh : Nat)
    (ty : String) : (compileErrors env s sh ty).any isGenVAO = false := by
  unfold compileErrors
  split <;> split <;> simp [isGenVAO]

lemma anyGenVAO_shaderNew (env : Env) (s : GLState) (vf ff : String) :
    (shaderNew env s vf ff).2.2.any isGenVAO = false := by
  simp [shaderNew, List.any_append, anyGenVAO_get_file_contents,
    anyGenVAO_compileErrors, isGenVAO]

lemma initGLFW_success (env : Env) (s : GLState) (h1 : env.glfwInitOk = true)
    (h2 : env.createWindowOk = true) (h3 : env.gladOk = true) :
    (initGLFW env s).1 = true := by
  cases h : s.gGLReady <;> simp [initGLFW, h, h1, h2, h3]

lemma uploadToGL_reuses_quad (env : Env) (t : GLState) (width height : Int)
    (ex wp : Rat) (hr : t.gGLReady = true) (hq : t.quadVAO ≠ 0)
    (hfb : env.fbComplete = true) :
    (uploadToGL env t width height ex wp).2.any isGenVAO = false ∧
    Event.bindVertexArray t.quadVAO ∈ (uploadToGL env t width height ex wp).2 ∧
    (uploadToGL env t width height ex wp).1.quadVAO = t.quadVAO := by
  have h0 : initGLFW env t = (true, t, []) := by simp [initGLFW, hr]
  simp [uploadToGL, h0, hfb, hr, initFullscreenQuad, hq, Shader.Delete,
    Shader.Activate, List.any_append, anyGenVAO_shaderNew, isGenVAO,
    shaderNew_quadVAO]

lemma uploadToGL_quadVAO (env : Env) (s : GLState) (width height : Int)
    (ex wp : Rat) (hinit : (initGLFW env s).1 = true) (hq : s.quadVAO ≠ 0)
    (hfb : env.fbComplete = true) :
    (uploadToGL env s width height ex wp).1.quadVAO = s.quadVAO := by
  have hvq := initGLFW_quadVAO env s
  rcases hval : initGLFW env s with ⟨b, s1, tr⟩
  rw [hval] at hinit hvq
  have hq1 : s1.quadVAO ≠ 0 := by rw [hvq]; exact hq
  simp only at hinit hvq
  simp [uploadToGL, hval, hinit, hfb, initFullscreenQuad, hq1, hq,
    Shader.Delete, shaderNew_quadVAO, hvq]

/-- C9: once `quadVAO` is non-zero no operation resets it — not
`InitFullscreenQuad`, not `InitGLFW`, not `CleanupGLFW`, not `UploadToGL` —
and consequently in the call sequence `CleanupGLFW; InitGLFW; UploadToGL`
(with all collaborators succeeding) the quad geometry is not recreated: the
trace of the final `UploadToGL` contains no `glGenVertexArrays` call and its
draw binds the stale `quadVAO` handle allocated under the destroyed
context. -/
theorem quadVAO_never_reset (env : Env) (s : GLState) (width height : Int)
    (exposure whitePoint : Rat) (hq : s.quadVAO ≠ 0)
    (h1 : env.glfwInitOk = true) (h2 : env.createWindowOk = true)
    (h3 : env.gladOk = true) (h4 : env.fbComplete = true) :
    (initFullscreenQuad s).1.quadVAO = s.quadVAO ∧
    (initGLFW env s).2.1.quadVAO = s.quadVAO ∧
    (cleanupGLFW s).1.quadVAO = s.quadVAO ∧
    (uploadToGL env s width height exposure whitePoint).1.quadVAO
      = s.quadVAO ∧
    (uploadToGL env (initGLFW env (cleanupGLFW s).1).2.1 width height
        exposure whitePoint).2.any isGenVAO = false ∧
    Event.bindVertexArray s.quadVAO
      ∈ (uploadToGL env (initGLFW env (cleanupGLFW s).1).2.1 width height
          exposure whitePoint).2 ∧
    (uploadToGL env (initGLFW env (cleanupGLFW s).1).2.1 width height
        exposure whitePoint).1.quadVAO = s.quadVAO := by
  have hscq : (cleanupGLFW s).1.quadVAO = s.quadVAO := cleanupGLFW_quadVAO s
  have hsiq : (initGLFW env (cleanupGLFW s).1).2.1.quadVAO = s.quadVAO := by
    rw [initGLFW_quadVAO]; exact hscq
  have hsir : (initGLFW env (cleanupGLFW s).1).2.1.gGLReady = true :=
    initGLFW_ready_of_true env _ (initGLFW_success env _ h1 h2 h3)
  have hmain := uploadToGL_reuses_quad env (initGLFW env (cleanupGLFW s).1).2.1
    width height exposure whitePoint hsir (by rw [hsiq]; exact hq) h4
  refine ⟨by simp [initFullscreenQuad, hq], initGLFW_quadVAO env s,
    cleanupGLFW_quadVAO s,
    uploadToGL_quadVAO env s width height exposure whitePoint
      (initGLFW_success env s h1 h2 h3) hq h4,
    hmain.1, ?_, ?_⟩
  · rw [← hsiq]; exact hmain.2.1
  · rw [hsiq] at hmain; exact hmain.2.2

/-- A concrete state whose fullscreen quad has been created (`quadVAO` = 2). -/
def quadState : GLState := (initFullscreenQuad readyState).1

/-- Witness for C9 at a concrete input. -/
theorem quadVAO_never_reset_witness :
    (initFullscreenQuad quadState).1.quadVAO = quadState.quadVAO ∧
    (initGLFW envAllOk quadState).2.1.quadVAO = quadState.quadVAO ∧
    (cleanupGLFW quadState).1.quadVAO = quadState.quadVAO ∧
    (uploadToGL envAllOk quadState 2 1 1 1).1.quadVAO = quadState.quadVAO ∧
    (uploadToGL envAllOk (initGLFW envAllOk (cleanupGLFW quadState).1).2.1
        2 1 1 1).2.any isGenVAO = false ∧
    Event.bindVertexArray quadState.quadVAO
      ∈ (uploadToGL envAllOk (initGLFW envAllOk (cleanupGLFW quadState).1).2.1
          2 1 1 1).2 ∧
    (uploadToGL envAllOk (initGLFW envAllOk (cleanupGLFW quadState).1).2.1
        2 1 1 1).1.quadVAO = quadState.quadVAO :=
  quadVAO_never_reset envAllOk quadState 2 1 1 1 (by decide) (by decide)
    (by decide) (by decide) (by decide)

/-- Is this event a diagnostic on the standard error stream? -/
def isStderr : Event → Bool
  | .log .stderr _ => true
  | _ => false

/-- Environment in which both shader stages fail to compile and the program
fails to link, with a non-empty driver log. -/
def envAllFail : Env :=
  { glfwInitOk := true, createWindowOk := true, gladOk := true, fbComplete := true,
    files := fun _ => some "src", compileOk := fun _ => false, linkOk := false,
    infoLog := fun _ => "LOG", shaderRoot := "C:" }

/-- C4 counterexample: in an environment where the vertex stage fails to
compile, the builder emits its `SHADER_COMPILATION_ERROR for: VERTEX`
diagnostic on the standard output stream and nothing at all on the standard
error stream — refuting the claim that failure diagnostics are logged to the
standard error channel. -/
theorem shader_diagnostics_not_on_stderr :
    envAllFail.compileOk "src" = false ∧
    Event.log Channel.stdout ("SHADER_COMPILATION_ERROR for: VERTEX\nLOG")
      ∈ (shaderNew envAllFail initState "v" "f").2.2 ∧
    (shaderNew envAllFail initState "v" "f").2.2.any isStderr = false := by
  decide

/-- C4 (amended): whenever a shader stage fails to compile or the program
fails to link, a diagnostic of up to 1024 bytes of the engine-provided log,
labeled by the stage name `VERTEX`, `FRAGMENT` or `PROGRAM`, is logged to the
standard output stream (`std::cout`, not standard error), and execution does
not halt — the builder still returns the program handle it produced
(`nextId + 3`) and still runs the stage deletions after the failure. -/
theorem shader_diagnostics_logged (env : Env) (s : GLState) (vf ff : String) :
    (env.compileOk (get_file_contents env vf).1 = false →
      Event.log .stdout ("SHADER_COMPILATION_ERROR for: VERTEX\n"
          ++ truncLog (env.infoLog (s.nextId + 1)))
        ∈ (shaderNew env s vf ff).2.2) ∧
    (env.compileOk (get_file_contents env ff).1 = false →
      Event.log .stdout ("SHADER_COMPILATION_ERROR for: FRAGMENT\n"
          ++ truncLog (env.infoLog (s.nextId + 2)))
        ∈ (shaderNew env s vf ff).2.2) ∧
    (env.linkOk = false →
      Event.log .stdout ("SHADER_LINKING_ERROR for: PROGRAM\n"
          ++ truncLog (env.infoLog (s.nextId + 3)))
        ∈ (shaderNew env s vf ff).2.2) ∧
    (∀ h : Nat, (truncLog (env.infoLog h)).length ≤ 1024) ∧
    (shaderNew env s vf ff).1.ID = s.nextId + 3 ∧
    Event.deleteShader (s.nextId + 1) ∈ (shaderNew env s vf ff).2.2 ∧
    Event.deleteShader (s.nextId + 2) ∈ (shaderNew env s vf ff).2.2 := by
  refine ⟨fun h => ?_, fun h => ?_, fun h => ?_, fun n => ?_, ?_, ?_, ?_⟩
  · simp [shaderNew, compileErrors, List.lookup, h]
  · simp [shaderNew, compileErrors, List.lookup, h]
  · simp [shaderNew, compileErrors, List.lookup, h]
  · simp only [truncLog, String.length]
    have := List.length_take_le 1023 (env.infoLog n).data
    omega
  · simp [shaderNew]
  · simp [shaderNew]
  · simp [shaderNew]

/-- Witness for the amended C4 at a concrete input where all three failures
occur. -/
theorem shader_diagnostics_logged_witness :
    (envAllFail.compileOk (get_file_contents envAllFail "v").1 = false →
      Event.log .stdout ("SHADER_COMPILATION_ERROR for: VERTEX\n"
          ++ truncLog (envAllFail.infoLog (initState.nextId + 1)))
        ∈ (shaderNew envAllFail initState "v" "f").2.2) ∧
    (envAllFail.compileOk (get_file_contents envAllFail "f").1 = false →
      Event.log .stdout ("SHADER_COMPILATION_ERROR for: FRAGMENT\n"
          ++ truncLog (envAllFail.infoLog (initState.nextId + 2)))
        ∈ (shaderNew envAllFail initState "v" "f").2.2) ∧
    (envAllFail.linkOk = false →
      Event.log .stdout ("SHADER_LINKING_ERROR for: PROGRAM\n"
          ++ truncLog (envAllFail.infoLog (initState.nextId + 3)))
        ∈ (shaderNew envAllFail initState "v" "f").2.2) ∧
    (∀ h : Nat, (truncLog (envAllFail.infoLog h)).length ≤ 1024) ∧
    (shaderNew envAllFail initState "v" "f").1.ID = initState.nextId + 3 ∧
    Event.deleteShader (initState.nextId + 1)
      ∈ (shaderNew envAllFail initState "v" "f").2.2 ∧
    Event.deleteShader (initState.nextId + 2)
      ∈ (shaderNew envAllFail initState "v" "f").2.2 :=
  shader_diagnostics_logged envAllFail initState "v" "f"

/-- Does this event belong to the compile/link/delete-stage skeleton of the
shader builder? -/
def stageEvent : Event → Bool
  | .compileShader _ => true
  | .linkProgram _ => true
  | .deleteShader _ => true
  | _ => false

lemma filterStage_get_file_contents (env : Env) (fn : String) :
    (get_file_contents env fn).2.filter stageEvent = [] := by
  cases h : env.files fn <;> simp [get_file_contents, h, stageEvent]

lemma filterStage_compileErrors (env : Env) (s : GLState) (sh : Nat)
    (ty : String) : (compileErrors env s sh ty).filter stageEvent = [] := by
  unfold compileErrors
  split <;> split <;> simp [stageEvent]

/-- C5: the shader builder compiles the vertex stage (handle `nextId+1`, fed
the vertex file's text), then the fragment stage (handle `nextId+2`, fed the
fragment file's text), then links a program (handle `nextId+3`) from both,
and after a successful link deletes the two intermediate stage objects — the
compile/link/delete skeleton of the trace is exactly that sequence, and the
live stage-shader set is restored to its pre-call value. -/
theorem shader_build_order (env : Env) (s : GLState) (vf ff : String)
    (_hl : env.linkOk = true) :
    (shaderNew env s vf ff).2.2.filter stageEvent
      = [.compileShader (s.nextId + 1), .compileShader (s.nextId + 2),
         .linkProgram (s.nextId + 3), .deleteShader (s.nextId + 1),
         .deleteShader (s.nextId + 2)] ∧
    Event.shaderSource (s.nextId + 1) (get_file_contents env vf).1
      ∈ (shaderNew env s vf ff).2.2 ∧
    Event.shaderSource (s.nextId + 2) (get_file_contents env ff).1
      ∈ (shaderNew env s vf ff).2.2 ∧
    (shaderNew env s vf ff).2.1.liveShaders = s.liveShaders := by
  refine ⟨?_, by simp [shaderNew], by simp [shaderNew],
    shaderNew_liveShaders env s vf ff⟩
  simp [shaderNew, List.filter_append, filterStage_get_file_contents,
    filterStage_compileErrors, stageEvent]

/-- Witness for C5 at a concrete input. -/
theorem shader_build_order_witness :
    (shaderNew envAllOk initState "v" "f").2.2.filter stageEvent
      = [.compileShader (initState.nextId + 1),
         .compileShader (initState.nextId + 2),
         .linkProgram (initState.nextId + 3),
         .deleteShader (initState.nextId + 1),
         .deleteShader (initState.nextId + 2)] ∧
    Event.shaderSource (initState.nextId + 1)
        (get_file_contents envAllOk "v").1
      ∈ (shaderNew envAllOk initState "v" "f").2.2 ∧
    Event.shaderSource (initState.nextId + 2)
        (get_file_contents envAllOk "f").1
      ∈ (shaderNew envAllOk initState "v" "f").2.2 ∧
    (shaderNew envAllOk initState "v" "f").2.1.liveShaders
      = initState.liveShaders :=
  shader_build_order envAllOk initState "v" "f" (by decide)

/-- Environment whose file system has no files at all and whose driver
rejects the empty source text. -/
def envMissingFile : Env :=
  { glfwInitOk := true, createWindowOk := true, gladOk := true, fbComplete := true,
    files := fun _ => none, compileOk := fun _ => false, linkOk := true,
    infoLog := fun _ => "LOG", shaderRoot := "C:" }

/-- C7: when the vertex source file cannot be opened, `get_file_contents`
returns the empty string after emitting a `file not found` diagnostic, and
this is not a hard failure: shader construction proceeds, feeds the empty
source to the driver and compiles it; assuming the driver rejects the empty
source, the failure is reported as a `VERTEX` compilation diagnostic, and the
builder still goes on to link and returns a program handle rather than
aborting. -/
theorem missing_shader_file_soft_failure (env : Env) (s : GLState)
    (vf ff : String) (hvf : env.files vf = none)
    (hempty : env.compileOk "" = false) :
    get_file_contents env vf
      = ("", [.log .stdout ("file not found: " ++ vf)]) ∧
    Event.log .stdout ("file not found: " ++ vf)
      ∈ (shaderNew env s vf ff).2.2 ∧
    Event.shaderSource (s.nextId + 1) "" ∈ (shaderNew env s vf ff).2.2 ∧
    Event.compileShader (s.nextId + 1) ∈ (shaderNew env s vf ff).2.2 ∧
    Event.log .stdout ("SHADER_COMPILATION_ERROR for: VERTEX\n"
        ++ truncLog (env.infoLog (s.nextId + 1)))
      ∈ (shaderNew env s vf ff).2.2 ∧
    Event.linkProgram (s.nextId + 3) ∈ (shaderNew env s vf ff).2.2 ∧
    (shaderNew env s vf ff).1.ID = s.nextId + 3 := by
  refine ⟨by simp [get_file_contents, hvf], ?_, ?_, ?_, ?_, ?_, ?_⟩ <;>
    simp [shaderNew, get_file_contents, compileErrors, List.lookup, hvf, hempty]

/-- Witness for C7 at a concrete input. -/
theorem missing_shader_file_soft_failure_witness :
    get_file_contents envMissingFile "v"
      = ("", [.log .stdout ("file not found: " ++ "v")]) ∧
    Event.log .stdout ("file not found: " ++ "v")
      ∈ (shaderNew envMissingFile initState "v" "f").2.2 ∧
    Event.shaderSource (initState.nextId + 1) ""
      ∈ (shaderNew envMissingFile initState "v" "f").2.2 ∧
    Event.compileShader (initState.nextId + 1)
      ∈ (shaderNew envMissingFile initState "v" "f").2.2 ∧
    Event.log .stdout ("SHADER_COMPILATION_ERROR for: VERTEX\n"
        ++ truncLog (envMissingFile.infoLog (initState.nextId + 1)))
      ∈ (shaderNew envMissingFile initState "v" "f").2.2 ∧
    Event.linkProgram (initState.nextId + 3)
      ∈ (shaderNew envMissingFile initState "v" "f").2.2 ∧
    (shaderNew envMissingFile initState "v" "f").1.ID
      = initState.nextId + 3 :=
  missing_shader_file_soft_failure envMissingFile initState "v" "f"
    (by decide) (by decide)

/-- Position (x, y) of vertex `i` in the interleaved `quadVertices` array:
each vertex occupies 4 floats, position first. -/
def vertexPos (i : Nat) : Int × Int :=
  (quadVertices.getD (4 * i) 0, quadVertices.getD (4 * i + 1) 0)

/-- View an integer point as a rational point. -/
def toQ (v : Int × Int) : Rat × Rat := ((v.1 : Rat), (v.2 : Rat))

/-- Z component of the cross product `(b - a) × (c - a)`: positive when the
turn `a → b → c` is counter-clockwise. -/
def crossZ (a b c : Rat × Rat) : Rat :=
  (b.1 - a.1) * (c.2 - a.2) - (b.2 - a.2) * (c.1 - a.1)

/-- Membership of `p` in the (closed) triangle `a b c`, for a
counter-clockwise triangle: `p` lies on the inner side of all three edges. -/
def inTri (a b c p : Rat × Rat) : Prop :=
  0 ≤ crossZ a b p ∧ 0 ≤ crossZ b c p ∧ 0 ≤ crossZ c a p

/-- The triangle `a b c` has counter-clockwise winding. -/
def ccwTri (a b c : Rat × Rat) : Prop := 0 < crossZ a b c

/-- C6: `InitFullscreenQuad` is idempotent (guarded by the non-zero
`quadVAO` check) and its first effective call uploads exactly 6 vertices — 24
floats at stride 4 — configuring attribute 0 as 2 position components at byte
offset 0 and attribute 1 as 2 UV components at byte offset 8 = 2 floats, both
with stride 16 bytes = 4 floats; the 6 positions form two counter-clockwise
triangles whose union is exactly the normalized-device-coordinate square
`[-1,1]^2`. -/
theorem initFullscreenQuad_spec (s : GLState) (p : Rat × Rat) :
    (s.quadVAO ≠ 0 → initFullscreenQuad s = (s, [])) ∧
    (s.quadVAO = 0 →
      (initFullscreenQuad s).2
        = [.genVertexArray (s.nextId + 1), .genBuffer (s.nextId + 2),
           .bindVertexArray (s.nextId + 1), .bindBuffer (s.nextId + 2),
           .bufferData quadVertices,
           .vertexAttrib 0 2 0 16, .vertexAttrib 1 2 8 16,
           .bindVertexArray 0] ∧
      (initFullscreenQuad s).1.quadVAO ≠ 0) ∧
    quadVertices.length = 6 * 4 ∧
    ccwTri (toQ (vertexPos 0)) (toQ (vertexPos 1)) (toQ (vertexPos 2)) ∧
    ccwTri (toQ (vertexPos 3)) (toQ (vertexPos 4)) (toQ (vertexPos 5)) ∧
    ((-1 ≤ p.1 ∧ p.1 ≤ 1 ∧ -1 ≤ p.2 ∧ p.2 ≤ 1) ↔
      (inTri (toQ (vertexPos 0)) (toQ (vertexPos 1)) (toQ (vertexPos 2)) p ∨
       inTri (toQ (vertexPos 3)) (toQ (vertexPos 4)) (toQ (vertexPos 5)) p)) := by
  refine ⟨fun h => by simp [initFullscreenQuad, h],
    fun h => by simp [initFullscreenQuad, h],
    by decide,
    by norm_num [ccwTri, crossZ, toQ, vertexPos, quadVertices],
    by norm_num [ccwTri, crossZ, toQ, vertexPos, quadVertices], ?_⟩
  obtain ⟨x, y⟩ := p
  simp only [inTri, crossZ, toQ, vertexPos, quadVertices]
  norm_num
  constructor
  · rintro ⟨h1, h2, h3, h4⟩
    by_cases hxy : x + y ≤ 0
    · left; refine ⟨by linarith, by linarith, by linarith⟩
    · right; refine ⟨by linarith, by linarith, by linarith⟩
  · rintro (⟨h1, h2, h3⟩ | ⟨h1, h2, h3⟩) <;>
      refine ⟨by linarith, by linarith, by linarith, by linarith⟩

/-- Witness for C6 at a concrete input: a state with a live quad handle (for
the idempotence part) and the center point of the square. -/
theorem initFullscreenQuad_spec_witness :
    (quadState.quadVAO ≠ 0 → initFullscreenQuad quadState = (quadState, [])) ∧
    (quadState.quadVAO = 0 →
      (initFullscreenQuad quadState).2
        = [.genVertexArray (quadState.nextId + 1),
           .genBuffer (quadState.nextId + 2),
           .bindVertexArray (quadState.nextId + 1),
           .bindBuffer (quadState.nextId + 2),
           .bufferData quadVertices,
           .vertexAttrib 0 2 0 16, .vertexAttrib 1 2 8 16,
           .bindVertexArray 0] ∧
      (initFullscreenQuad quadState).1.quadVAO ≠ 0) ∧
    quadVertices.length = 6 * 4 ∧
    ccwTri (toQ (vertexPos 0)) (toQ (vertexPos 1)) (toQ (vertexPos 2)) ∧
    ccwTri (toQ (vertexPos 3)) (toQ (vertexPos 4)) (toQ (vertexPos 5)) ∧
    ((-1 ≤ (0 : Rat) ∧ (0 : Rat) ≤ 1 ∧ -1 ≤ (0 : Rat) ∧ (0 : Rat) ≤ 1) ↔
      (inTri (toQ (vertexPos 0)) (toQ (vertexPos 1)) (toQ (vertexPos 2))
         ((0 : Rat), (0 : Rat)) ∨
       inTri (toQ (vertexPos 3)) (toQ (vertexPos 4)) (toQ (vertexPos 5))
         ((0 : Rat), (0 : Rat)))) :=
  initFullscreenQuad_spec quadState ((0 : Rat), (0 : Rat))

end ToneMapping
